import Mathlib

/-!
Verification of the adaptive-attack-surface-mapper core:
a shallow embedding of `scanner.py` (port scanning pipeline) and
`risk_engine.py` (risk classification, scoring, executive summary and
attack-narrative generation), together with theorems settling the
specification claims about them.
-/

/-! ## Risk engine data model (`risk_engine.py`) -/

/-- The three risk tiers used by `RiskEngine.RISK_LEVELS`.  The Python code
represents them as the closed set of strings HIGH, MEDIUM and LOW; every
profile in `SERVICE_RISKS` carries one of exactly these three. -/
inductive RiskLevel
  | HIGH
  | MEDIUM
  | LOW
deriving DecidableEq, Repr, BEq

/-- One entry of the `SERVICE_RISKS` table: risk tier, reason, mitigation. -/
structure ServiceProfile where
  risk : RiskLevel
  reason : String
  mitigation : String
deriving DecidableEq, Repr

/-- Per-tier score weights from `RiskEngine.RISK_LEVELS` (the `score` field). -/
def RISK_LEVELS_score : RiskLevel → Int
  | RiskLevel.HIGH => 30
  | RiskLevel.MEDIUM => 15
  | RiskLevel.LOW => 5

/-- Per-tier display colors from `RiskEngine.RISK_LEVELS` (the `color` field). -/
def RISK_LEVELS_color : RiskLevel → String
  | RiskLevel.HIGH => "#dc3545"
  | RiskLevel.MEDIUM => "#ffc107"
  | RiskLevel.LOW => "#28a745"

/-- The default profile for unmapped services: the `Unknown` entry of
`SERVICE_RISKS`. -/
def unknown_profile : ServiceProfile :=
  { risk := RiskLevel.MEDIUM
    reason := "Unidentified service requires investigation"
    mitigation := "Investigate service identity. Close if unnecessary. Ensure proper security." }

/-- The `RiskEngine.SERVICE_RISKS` table, in source order. -/
def SERVICE_RISKS : List (String × ServiceProfile) :=
  [ ("Telnet",
      { risk := RiskLevel.HIGH
        reason := "Unencrypted protocol transmitting credentials in plaintext"
        mitigation := "Replace with SSH. Disable Telnet service immediately." }),
    ("FTP",
      { risk := RiskLevel.HIGH
        reason := "Unencrypted file transfer with plaintext authentication"
        mitigation := "Use SFTP or FTPS. Configure with strong authentication." }),
    ("SMB",
      { risk := RiskLevel.HIGH
        reason := "Vulnerable to ransomware and lateral movement attacks"
        mitigation := "Restrict access with firewall rules. Keep SMB version updated. Enable SMB signing." }),
    ("RDP",
      { risk := RiskLevel.HIGH
        reason := "Common target for brute-force attacks and exploitation"
        mitigation := "Use VPN for access. Enable Network Level Authentication. Implement MFA." }),
    ("VNC",
      { risk := RiskLevel.HIGH
        reason := "Often configured with weak passwords or no encryption"
        mitigation := "Use SSH tunneling. Implement strong authentication. Consider alternatives." }),
    ("MySQL",
      { risk := RiskLevel.HIGH
        reason := "Database exposed to internet increases attack surface"
        mitigation := "Bind to localhost only. Use firewall rules. Implement strong passwords." }),
    ("PostgreSQL",
      { risk := RiskLevel.HIGH
        reason := "Database service should not be publicly accessible"
        mitigation := "Restrict to internal network. Use pg_hba.conf properly. Enable SSL." }),
    ("HTTP",
      { risk := RiskLevel.MEDIUM
        reason := "Unencrypted web traffic vulnerable to interception"
        mitigation := "Implement HTTPS with valid SSL/TLS certificates. Redirect HTTP to HTTPS." }),
    ("HTTP-Proxy",
      { risk := RiskLevel.MEDIUM
        reason := "Proxy service may allow unauthorized access"
        mitigation := "Implement authentication. Restrict access by IP whitelist." }),
    ("HTTPS-Alt",
      { risk := RiskLevel.MEDIUM
        reason := "Non-standard HTTPS port may be misconfigured"
        mitigation := "Ensure proper SSL/TLS configuration. Use standard ports when possible." }),
    ("SMTP",
      { risk := RiskLevel.MEDIUM
        reason := "Mail server can be abused for spam or relay attacks"
        mitigation := "Configure SPF, DKIM, DMARC. Disable open relay. Use authentication." }),
    ("POP3",
      { risk := RiskLevel.MEDIUM
        reason := "Unencrypted email retrieval protocol"
        mitigation := "Use POP3S (SSL/TLS). Consider IMAP with encryption instead." }),
    ("IMAP",
      { risk := RiskLevel.MEDIUM
        reason := "Email protocol without encryption"
        mitigation := "Use IMAPS (SSL/TLS). Enforce strong authentication." }),
    ("DNS",
      { risk := RiskLevel.MEDIUM
        reason := "DNS server may be vulnerable to amplification attacks"
        mitigation := "Restrict recursive queries. Implement rate limiting. Use DNSSEC." }),
    ("HTTPS",
      { risk := RiskLevel.LOW
        reason := "Encrypted web service (validate certificate and configuration)"
        mitigation := "Keep SSL/TLS updated. Use strong ciphers. Monitor certificate expiration." }),
    ("SSH",
      { risk := RiskLevel.LOW
        reason := "Secure but requires proper configuration"
        mitigation := "Disable password auth. Use key-based authentication. Change default port." }),
    ("FTP-DATA",
      { risk := RiskLevel.LOW
        reason := "FTP data channel (assess based on FTP configuration)"
        mitigation := "Secure if using FTPS. Otherwise follow FTP mitigation strategies." }),
    ("Unknown", unknown_profile) ]

/-- `RiskEngine.get_risk_profile`: dictionary lookup with the `Unknown`
entry as default (`self.SERVICE_RISKS.get(service, self.SERVICE_RISKS['Unknown'])`). -/
def get_risk_profile (service : String) : ServiceProfile :=
  (SERVICE_RISKS.lookup service).getD unknown_profile

/-- One element of the list returned by `RiskEngine.assess_risks`. -/
structure RiskAssessment where
  port : Nat
  service : String
  risk_level : RiskLevel
  risk_color : String
  reason : String
  mitigation : String
deriving DecidableEq, Repr

/-- One element of the list returned by `PortScanner.scan`. -/
structure PortScanResult where
  port : Nat
  service : String
deriving DecidableEq, Repr

/-- `RiskEngine.assess_risks`: builds one `RiskAssessment` per open port, in
input order, from the classified profile of the port's service. -/
def assess_risks (open_ports : List PortScanResult) : List RiskAssessment :=
  open_ports.map (fun port_info =>
    let risk_profile := get_risk_profile port_info.service
    { port := port_info.port
      service := port_info.service
      risk_level := risk_profile.risk
      risk_color := RISK_LEVELS_color risk_profile.risk
      reason := risk_profile.reason
      mitigation := risk_profile.mitigation })

/-- `RiskEngine.calculate_security_score`: 100 for an empty assessment list,
otherwise `max(0, 100 - total_risk)` where `total_risk` accumulates the
per-tier weights. -/
def calculate_security_score (risk_results : List RiskAssessment) : Int :=
  if risk_results.isEmpty then
    100
  else
    let total_risk := risk_results.foldl (fun acc r => acc + RISK_LEVELS_score r.risk_level) 0
    max 0 (100 - total_risk)

/-- The record returned by `RiskEngine.get_security_rating`. -/
structure SecurityRating where
  rating : String
  description : String
  color : String
deriving DecidableEq, Repr

/-- `RiskEngine.get_security_rating`: threshold buckets on the score. -/
def get_security_rating (score : Int) : SecurityRating :=
  if score ≥ 90 then
    { rating := "EXCELLENT"
      description := "Very secure configuration with minimal attack surface"
      color := "#28a745" }
  else if score ≥ 70 then
    { rating := "GOOD"
      description := "Secure with minor improvements needed"
      color := "#20c997" }
  else if score ≥ 50 then
    { rating := "FAIR"
      description := "Moderate security concerns require attention"
      color := "#ffc107" }
  else if score ≥ 30 then
    { rating := "POOR"
      description := "Significant security vulnerabilities present"
      color := "#fd7e14" }
  else
    { rating := "CRITICAL"
      description := "Severe security issues requiring immediate action"
      color := "#dc3545" }

/-- The record returned by `RiskEngine.generate_executive_summary`. -/
structure ExecutiveSummary where
  security_score : Int
  rating : String
  rating_description : String
  rating_color : String
  total_open_ports : Nat
  high_risk_count : Nat
  medium_risk_count : Nat
  low_risk_count : Nat
  priority_actions : List String
deriving DecidableEq, Repr

/-- `RiskEngine.generate_executive_summary`: per-tier counts, rating, and
the priority-action list (HIGH entry if any HIGH, MEDIUM entry if any
MEDIUM, otherwise a single maintain-posture entry). -/
def generate_executive_summary (risk_results : List RiskAssessment)
    (security_score : Int) : ExecutiveSummary :=
  let high_count := risk_results.countP (fun r => r.risk_level == RiskLevel.HIGH)
  let medium_count := risk_results.countP (fun r => r.risk_level == RiskLevel.MEDIUM)
  let low_count := risk_results.countP (fun r => r.risk_level == RiskLevel.LOW)
  let rating := get_security_rating security_score
  let priority_actions : List String :=
    (if high_count > 0 then
        ["Address " ++ toString high_count ++ " HIGH risk service(s) immediately"]
      else [])
  let priority_actions :=
    priority_actions ++
      (if medium_count > 0 then
          ["Review " ++ toString medium_count ++ " MEDIUM risk service(s)"]
        else [])
  let priority_actions :=
    if priority_actions.isEmpty then
      priority_actions ++ ["Continue monitoring and maintain security posture"]
    else priority_actions
  { security_score := security_score
    rating := rating.rating
    rating_description := rating.description
    rating_color := rating.color
    total_open_ports := risk_results.length
    high_risk_count := high_count
    medium_risk_count := medium_count
    low_risk_count := low_count
    priority_actions := priority_actions }

/-! ## Port scanner (`scanner.py`) -/

/-- The `PortScanner.COMMON_SERVICES` table, in source order. -/
def COMMON_SERVICES : List (Nat × String) :=
  [ (20, "FTP-DATA"), (21, "FTP"), (22, "SSH"), (23, "Telnet"), (25, "SMTP"),
    (53, "DNS"), (80, "HTTP"), (110, "POP3"), (143, "IMAP"), (443, "HTTPS"),
    (445, "SMB"), (3306, "MySQL"), (3389, "RDP"), (5432, "PostgreSQL"),
    (5900, "VNC"), (8080, "HTTP-Proxy"), (8443, "HTTPS-Alt") ]

/-- Outcome of one `connect_ex` attempt inside `PortScanner.scan_port`:
either the socket call returns an error code, or it raises one of the
exception classes the surrounding `try` distinguishes
(`socket.gaierror`, `socket.error`, any other `Exception`). -/
inductive ConnectAttempt
  | result (code : Int)
  | gaierror (msg : String)
  | socketError (msg : String)
  | otherError (msg : String)
deriving DecidableEq, Repr

/-- `PortScanner.scan_port`: the `try` block reports the port open exactly
when `connect_ex` returned 0; every exception branch (`socket.gaierror`
for resolution failure, `socket.error`, and the catch-all) logs and
returns `False`.  The `Except` codomain records that a Python callable
may raise: this one never does — every branch is `Except.ok`. -/
def scan_port (attempt : ConnectAttempt) : Except String Bool :=
  match attempt with
  | ConnectAttempt.result code => Except.ok (code == 0)
  | ConnectAttempt.gaierror _ => Except.ok false
  | ConnectAttempt.socketError _ => Except.ok false
  | ConnectAttempt.otherError _ => Except.ok false

/-- `PortScanner.get_service_name`: the static table takes precedence, then
the host service database (uppercased), then the literal `Unknown`.  The
host database is modelled as an oracle `env` since it is
environment-dependent. -/
def get_service_name (env : Nat → Option String) (port : Nat) : String :=
  match COMMON_SERVICES.lookup port with
  | some service => service
  | none =>
    match env port with
    | some service => service.toUpper
    | none => "Unknown"

/-- The FIFO work queue seeded by `PortScanner.scan`: every port of
`[start_port, end_port]` exactly once, in ascending order. -/
def port_queue (start_port end_port : Nat) : List Nat :=
  List.range' start_port (end_port + 1 - start_port)

/-- One loop iteration of `PortScanner.worker`: probe the port and append a
`{port, service}` record to the shared list when it is open.  Runs in the
`Except` monad so that an exception escaping `scan_port` would propagate
out of the worker. -/
def worker_probe (attempt : Nat → ConnectAttempt) (env : Nat → Option String)
    (acc : List PortScanResult) (port : Nat) : Except String (List PortScanResult) := do
  let is_open ← scan_port (attempt port)
  if is_open then
    pure (acc ++ [{ port := port, service := get_service_name env port }])
  else
    pure acc

/-- Sorting step at the end of `PortScanner.scan`:
`self.open_ports.sort(key=lambda x: x['port'])` (a stable sort by port). -/
def sort_by_port (l : List PortScanResult) : List PortScanResult :=
  l.mergeSort (fun a b => a.port ≤ b.port)

/-- `PortScanner.scan`: process the whole queue, then sort the collected
open ports ascending by port number.  `attempt` gives the outcome of the
connect attempt for each port (for an unresolvable target every attempt
raises `socket.gaierror`). -/
def scan (attempt : Nat → ConnectAttempt) (env : Nat → Option String)
    (start_port end_port : Nat) : Except String (List PortScanResult) := do
  let open_ports ← (port_queue start_port end_port).foldlM (worker_probe attempt env) []
  pure (sort_by_port open_ports)

/-- Whether a port reads as open to the worker; the `Except.error` branch
is unreachable because `scan_port` never raises. -/
def is_open_port (attempt : ConnectAttempt) : Bool :=
  match scan_port attempt with
  | Except.ok b => b
  | Except.error _ => false

/-- The multiset of records the worker pool appends to the shared
`open_ports` list during one scan, written in queue order.  Thread
interleaving delivers these records in an arbitrary order, so the
pre-sort state of `open_ports` is an arbitrary permutation of this
list. -/
def open_port_entries (attempt : Nat → ConnectAttempt) (env : Nat → Option String)
    (start_port end_port : Nat) : List PortScanResult :=
  ((port_queue start_port end_port).filter (fun port => is_open_port (attempt port))).map
    (fun port => { port := port, service := get_service_name env port })

/-! ## Narrative generator (`RiskEngine.simulate_attack_scenarios`) -/

/-- `', '.join(...)` over the `service(port)` pair of each assessment. -/
def pair_string (r : RiskAssessment) : String :=
  r.service ++ "(" ++ toString r.port ++ ")"

/-- Python `', '.join`. -/
def join_comma : List String → String
  | [] => ""
  | [s] => s
  | s :: rest => s ++ ", " ++ join_comma rest

/-- The `service(port)` listing interpolated into the narratives
(`high_services`, `medium_services`, `low_services` in the source). -/
def service_port_pairs (l : List RiskAssessment) : String :=
  join_comma (l.map pair_string)

/-- Remote-access rule narrative (fires on RDP/SSH/Telnet among HIGH). -/
def remote_access_narrative (high_services : String) : String :=
  "CRITICAL: Remote Access Exploitation - Detected remote access services (" ++
    high_services ++
    "). Attackers could exploit weak credentials or protocol vulnerabilities " ++
    "to gain initial system access. Implement MFA, use VPN, and enforce strong password policies."

/-- Lateral-movement rule narrative (fires on SMB/FTP among HIGH). -/
def lateral_movement_narrative (high_services : String) : String :=
  "CRITICAL: Lateral Movement Vector - Detected file sharing/transfer protocols (" ++
    high_services ++
    "). Successfully compromised systems could leverage these services " ++
    "to move laterally across the network and exfiltrate sensitive data."

/-- Database rule narrative (fires on MySQL/PostgreSQL among HIGH). -/
def database_compromise_narrative (high_services : String) : String :=
  "CRITICAL: Database Compromise - Exposed database services (" ++ high_services ++
    ") are prime targets. Direct database access bypasses application security controls " ++
    "and could lead to complete data breach. Implement network segmentation immediately."

/-- Telnet rule narrative: a fixed string, no pair listing. -/
def credential_interception_narrative : String :=
  "CRITICAL: Credential Interception - Telnet transmits all data including credentials " ++
    "in plaintext. Network-based attackers can intercept login credentials without any special tools. " ++
    "This service must be disabled and replaced with SSH."

/-- VNC rule narrative: a fixed string, no pair listing. -/
def desktop_hijack_narrative : String :=
  "CRITICAL: Remote Desktop Hijacking - VNC services often have weak or default passwords. " ++
    "Attackers can gain interactive desktop access for reconnaissance, data theft, or deploying malware. " ++
    "Enforce encryption and multi-factor authentication."

/-- Web-services rule narrative (fires on HTTP/HTTP-Proxy/HTTPS-Alt among MEDIUM). -/
def web_service_narrative (medium_services : String) : String :=
  "HIGH: Web Service Exploitation - Detected web services (" ++ medium_services ++ "). " ++
    "These are common attack vectors for credential harvesting, session hijacking, or application exploits. " ++
    "Ensure all web services use HTTPS, apply security patches, and implement Web Application Firewalls."

/-- Email rule narrative (fires on SMTP/POP3/IMAP among MEDIUM). -/
def email_abuse_narrative (medium_services : String) : String :=
  "HIGH: Email Service Abuse - Detected email services (" ++ medium_services ++ "). " ++
    "Misconfigured mail servers can be exploited as open relays for spam, phishing campaigns, or credential attacks. " ++
    "Enforce authentication, disable unnecessary protocols, and implement email filtering."

/-- DNS rule narrative: a fixed string, no pair listing. -/
def dns_abuse_narrative : String :=
  "HIGH: DNS Infrastructure Abuse - Exposed DNS services can be exploited for cache poisoning, " ++
    "DNS amplification attacks, or unauthorized zone transfers. Implement access controls, rate limiting, and DNSSEC."

/-- LOW-tier narrative listing all low-risk pairs. -/
def maintain_vigilance_narrative (low_services : String) : String :=
  "RECOMMENDED: Maintain Vigilance - Detected low-risk services (" ++ low_services ++ "). " ++
    "While these services have proper security controls, continuous monitoring is essential. " ++
    "Keep systems patched, monitor logs for suspicious activity, and maintain security awareness."

/-- Overall summary when at least one HIGH-tier assessment exists. -/
def high_summary_narrative (high_count : Nat) : String :=
  "⚠️  ATTACK SURFACE SUMMARY: System has " ++ toString high_count ++ " critical vulnerabilities. " ++
    "This represents a HIGH risk of compromise. Prioritize immediate remediation of all HIGH risk services " ++
    "to prevent unauthorized access and data breach."

/-- Overall summary when no HIGH but at least one MEDIUM assessment exists. -/
def medium_summary_narrative (medium_count : Nat) : String :=
  "ATTACK SURFACE SUMMARY: System has " ++ toString medium_count ++ " moderate vulnerabilities. " ++
    "These should be addressed within your regular patch and hardening cycle. Implement layered defenses."

/-- Overall summary when only LOW-tier assessments exist. -/
def minimal_summary_narrative : String :=
  "ATTACK SURFACE SUMMARY: System shows minimal attack surface with only low-risk services detected. " ++
    "Maintain current security posture through regular monitoring and updates."

/-- The fixed narrative for an empty assessment list. -/
def no_open_ports_narrative : String :=
  "No open ports detected. Current attack surface is minimal."

/-- `RiskEngine.simulate_attack_scenarios`, transcribed with the source's
control flow: the early return on an empty list; the tier partition; the
five guarded HIGH rules (computed only when HIGH assessments exist, each
interpolating the whole tier's `high_services` listing, the Telnet and
VNC rules interpolating nothing); the three guarded MEDIUM rules; the
single LOW vigilance entry; and the final summary chosen by `len > 0`
precedence.  Appends to one Python list become list concatenation in the
same order. -/
def simulate_attack_scenarios (risk_results : List RiskAssessment) : List String :=
  if risk_results.isEmpty then
    [no_open_ports_narrative]
  else
    let high_risk_ports := risk_results.filter (fun r => r.risk_level == RiskLevel.HIGH)
    let medium_risk_ports := risk_results.filter (fun r => r.risk_level == RiskLevel.MEDIUM)
    let low_risk_ports := risk_results.filter (fun r => r.risk_level == RiskLevel.LOW)
    let high_block : List String :=
      if high_risk_ports.isEmpty then [] else
        let high_services := service_port_pairs high_risk_ports
        (if high_risk_ports.any (fun r => ["RDP", "SSH", "Telnet"].contains r.service) then
            [remote_access_narrative high_services] else []) ++
        (if high_risk_ports.any (fun r => ["SMB", "FTP"].contains r.service) then
            [lateral_movement_narrative high_services] else []) ++
        (if high_risk_ports.any (fun r => ["MySQL", "PostgreSQL"].contains r.service) then
            [database_compromise_narrative high_services] else []) ++
        (if high_risk_ports.any (fun r => r.service == "Telnet") then
            [credential_interception_narrative] else []) ++
        (if high_risk_ports.any (fun r => r.service == "VNC") then
            [desktop_hijack_narrative] else [])
    let medium_block : List String :=
      if medium_risk_ports.isEmpty then [] else
        let medium_services := service_port_pairs medium_risk_ports
        (if medium_risk_ports.any (fun r => ["HTTP", "HTTP-Proxy", "HTTPS-Alt"].contains r.service) then
            [web_service_narrative medium_services] else []) ++
        (if medium_risk_ports.any (fun r => ["SMTP", "POP3", "IMAP"].contains r.service) then
            [email_abuse_narrative medium_services] else []) ++
        (if medium_risk_ports.any (fun r => r.service == "DNS") then
            [dns_abuse_narrative] else [])
    let low_block : List String :=
      if low_risk_ports.isEmpty then [] else
        [maintain_vigilance_narrative (service_port_pairs low_risk_ports)]
    let summary_block : List String :=
      if high_risk_ports.length > 0 then
        [high_summary_narrative high_risk_ports.length]
      else if medium_risk_ports.length > 0 then
        [medium_summary_narrative medium_risk_ports.length]
      else
        [minimal_summary_narrative]
    high_block ++ medium_block ++ low_block ++ summary_block

/-- The Narrative Generator contract as the specification states it: the
five HIGH rules in a fixed order, each firing independently on its
service group; then the three MEDIUM rules; then the single LOW
maintain-vigilance entry when LOW assessments exist; then exactly one
overall summary chosen by HIGH-then-MEDIUM precedence, appended last. -/
def simulate_contract (assessments : List RiskAssessment) : List String :=
  let high := assessments.filter (fun r => r.risk_level == RiskLevel.HIGH)
  let med := assessments.filter (fun r => r.risk_level == RiskLevel.MEDIUM)
  let low := assessments.filter (fun r => r.risk_level == RiskLevel.LOW)
  (if high.any (fun r => ["RDP", "SSH", "Telnet"].contains r.service) then
      [remote_access_narrative (service_port_pairs high)] else []) ++
  (if high.any (fun r => ["SMB", "FTP"].contains r.service) then
      [lateral_movement_narrative (service_port_pairs high)] else []) ++
  (if high.any (fun r => ["MySQL", "PostgreSQL"].contains r.service) then
      [database_compromise_narrative (service_port_pairs high)] else []) ++
  (if high.any (fun r => r.service == "Telnet") then
      [credential_interception_narrative] else []) ++
  (if high.any (fun r => r.service == "VNC") then
      [desktop_hijack_narrative] else []) ++
  (if med.any (fun r => ["HTTP", "HTTP-Proxy", "HTTPS-Alt"].contains r.service) then
      [web_service_narrative (service_port_pairs med)] else []) ++
  (if med.any (fun r => ["SMTP", "POP3", "IMAP"].contains r.service) then
      [email_abuse_narrative (service_port_pairs med)] else []) ++
  (if med.any (fun r => r.service == "DNS") then
      [dns_abuse_narrative] else []) ++
  (if low ≠ [] then
      [maintain_vigilance_narrative (service_port_pairs low)] else []) ++
  (if high ≠ [] then [high_summary_narrative high.length]
    else if med ≠ [] then [medium_summary_narrative med.length]
    else [minimal_summary_narrative])

/-! ## Sample inputs used by witnesses and counterexamples -/

/-- The end-to-end sample scan of the spec: SSH, Telnet, HTTP, HTTPS, RDP. -/
def sample_open_ports : List PortScanResult :=
  [ { port := 22, service := "SSH" },
    { port := 23, service := "Telnet" },
    { port := 80, service := "HTTP" },
    { port := 443, service := "HTTPS" },
    { port := 3389, service := "RDP" } ]

/-- Assessments for the sample scan. -/
def sample_assessments : List RiskAssessment := assess_risks sample_open_ports

/-- Two HIGH-risk findings in different narrative groups: RDP (remote
access group) together with MySQL (database group). -/
def two_high_assessments : List RiskAssessment :=
  assess_risks [ { port := 3389, service := "RDP" }, { port := 3306, service := "MySQL" } ]

/-- Connect outcomes for a host where exactly ports 22 and 23 accept. -/
def witness_attempt : Nat → ConnectAttempt :=
  fun p => if p == 22 || p == 23 then ConnectAttempt.result 0 else ConnectAttempt.result 111

/-- A host service database that resolves nothing. -/
def witness_env : Nat → Option String := fun _ => none

/-- A worker completion order that delivered port 23 before port 22. -/
def witness_collected : List PortScanResult :=
  [ { port := 23, service := "Telnet" }, { port := 22, service := "SSH" } ]

/-! ## Helper lemmas -/

/-- Spec-side total risk: the sum over the list of the per-tier weights. -/
def total_risk_weight (l : List RiskAssessment) : Int :=
  (l.map (fun r => RISK_LEVELS_score r.risk_level)).sum

lemma RISK_LEVELS_score_pos (lv : RiskLevel) : 0 < RISK_LEVELS_score lv := by
  cases lv <;> decide

lemma total_risk_foldl (l : List RiskAssessment) (c : Int) :
    l.foldl (fun acc r => acc + RISK_LEVELS_score r.risk_level) c =
      c + total_risk_weight l := by
  induction l generalizing c with
  | nil => simp [total_risk_weight]
  | cons r t ih => simp [total_risk_weight, List.foldl_cons, ih, add_assoc]

lemma total_risk_weight_nonneg (l : List RiskAssessment) : 0 ≤ total_risk_weight l := by
  refine List.sum_nonneg ?_
  intro x hx
  simp only [List.mem_map] at hx
  obtain ⟨r, -, rfl⟩ := hx
  exact le_of_lt (RISK_LEVELS_score_pos r.risk_level)

lemma total_risk_weight_append (l t : List RiskAssessment) :
    total_risk_weight (l ++ t) = total_risk_weight l + total_risk_weight t := by
  simp [total_risk_weight]

lemma calculate_security_score_ne_nil (l : List RiskAssessment) (h : l ≠ []) :
    calculate_security_score l = max 0 (100 - total_risk_weight l) := by
  have he : l.isEmpty = false := by simpa [List.isEmpty_iff] using h
  simp [calculate_security_score, he, total_risk_foldl]

/-! ## Claims about the security scorer -/

/-- Claim C1: `calculate_security_score` returns 100 on the empty list,
otherwise `max(0, 100 - total_risk)` where `total_risk` sums the fixed
per-tier weights HIGH=30, MEDIUM=15, LOW=5, and the result always lies
in `[0, 100]`. -/
theorem C1_security_score (risk_results : List RiskAssessment) :
    (risk_results = [] → calculate_security_score risk_results = 100) ∧
    (risk_results ≠ [] →
      calculate_security_score risk_results = max 0 (100 - total_risk_weight risk_results)) ∧
    0 ≤ calculate_security_score risk_results ∧
    calculate_security_score risk_results ≤ 100 := by
  refine ⟨fun h => by simp [calculate_security_score, h],
    calculate_security_score_ne_nil risk_results, ?_, ?_⟩
  · by_cases h : risk_results = []
    · simp [calculate_security_score, h]
    · rw [calculate_security_score_ne_nil risk_results h]; exact le_max_left _ _
  · by_cases h : risk_results = []
    · simp [calculate_security_score, h]
    · rw [calculate_security_score_ne_nil risk_results h]
      have := total_risk_weight_nonneg risk_results
      exact max_le (by norm_num) (by omega)

/-- Witness for C1 at the spec's sample scan: the five assessed services
weigh 5+30+15+5+30 = 85, so the score is 15. -/
theorem C1_security_score_witness :
    sample_assessments ≠ [] ∧
    calculate_security_score sample_assessments =
      max 0 (100 - total_risk_weight sample_assessments) ∧
    calculate_security_score sample_assessments = 15 :=
  ⟨by decide, (C1_security_score sample_assessments).2.1 (by decide), by decide⟩

/-- Claim C6: the score is monotonically non-increasing under appending
any single assessment. -/
theorem C6_score_monotone (l : List RiskAssessment) (a : RiskAssessment) :
    calculate_security_score (l ++ [a]) ≤ calculate_security_score l := by
  have hwa : 0 ≤ total_risk_weight [a] := total_risk_weight_nonneg [a]
  rw [calculate_security_score_ne_nil (l ++ [a]) (by simp)]
  by_cases hl : l = []
  · subst hl
    have h100 : calculate_security_score [] = 100 := rfl
    rw [h100, List.nil_append]
    exact max_le (by norm_num) (by omega)
  · rw [calculate_security_score_ne_nil l hl, total_risk_weight_append]
    exact max_le (le_max_left _ _) (le_trans (by omega) (le_max_right _ _))

/-! ## Claims about the rating function -/

/-- Claim C2: `get_security_rating` is total over integer scores in
`[0, 100]` with non-overlapping buckets: EXCELLENT exactly on `[90, 100]`,
GOOD on `[70, 89]`, FAIR on `[50, 69]`, POOR on `[30, 49]`, CRITICAL on
`[0, 29]`; each score receives exactly one of the five ratings. -/
theorem C2_rating_buckets (score : Int) (h0 : 0 ≤ score) (h100 : score ≤ 100) :
    ((get_security_rating score).rating = "EXCELLENT" ↔ 90 ≤ score) ∧
    ((get_security_rating score).rating = "GOOD" ↔ 70 ≤ score ∧ score ≤ 89) ∧
    ((get_security_rating score).rating = "FAIR" ↔ 50 ≤ score ∧ score ≤ 69) ∧
    ((get_security_rating score).rating = "POOR" ↔ 30 ≤ score ∧ score ≤ 49) ∧
    ((get_security_rating score).rating = "CRITICAL" ↔ score ≤ 29) ∧
    (get_security_rating score).rating ∈
      (["EXCELLENT", "GOOD", "FAIR", "POOR", "CRITICAL"] : List String) := by
  unfold get_security_rating
  split_ifs with h1 h2 h3 h4 <;> refine ⟨?_, ?_, ?_, ?_, ?_, ?_⟩ <;> simp <;> omega

/-- Witness for C2 at every boundary score named by the claim. -/
theorem C2_rating_buckets_witness :
    ((0 : Int) ≤ 90 ∧ (90 : Int) ≤ 100 ∧ 90 ≤ (90 : Int)) ∧
    (get_security_rating 90).rating = "EXCELLENT" ∧
    (get_security_rating 89).rating = "GOOD" ∧
    (get_security_rating 70).rating = "GOOD" ∧
    (get_security_rating 69).rating = "FAIR" ∧
    (get_security_rating 50).rating = "FAIR" ∧
    (get_security_rating 49).rating = "POOR" ∧
    (get_security_rating 30).rating = "POOR" ∧
    (get_security_rating 29).rating = "CRITICAL" :=
  ⟨⟨by decide, by decide, by decide⟩,
    ((C2_rating_buckets 90 (by decide) (by decide)).1).mpr (by decide),
    by decide, by decide, by decide, by decide, by decide, by decide, by decide⟩

/-! ## Claims about the risk classifier -/

lemma lookup_eq_none_of_not_mem_keys {α β : Type} [BEq α] [LawfulBEq α]
    (a : α) (l : List (α × β)) (h : ∀ p ∈ l, a ≠ p.1) : l.lookup a = none := by
  induction l with
  | nil => rfl
  | cons p t ih =>
    obtain ⟨k, v⟩ := p
    have hne : (a == k) = false :=
      beq_eq_false_iff_ne.mpr (h (k, v) (List.mem_cons_self _ _))
    simpa [List.lookup, hne] using ih (fun q hq => h q (List.mem_cons_of_mem _ hq))

/-- Claim C4: `get_risk_profile` is total, always yields one of the three
tiers, and maps every name missing from the table to the default entry
(MEDIUM, generic investigate rationale); the literal `Unknown` maps to
that same entry. -/
theorem C4_classify_total (service : String) :
    ((get_risk_profile service).risk = RiskLevel.HIGH ∨
      (get_risk_profile service).risk = RiskLevel.MEDIUM ∨
      (get_risk_profile service).risk = RiskLevel.LOW) ∧
    (service ∉ SERVICE_RISKS.map Prod.fst →
      get_risk_profile service = unknown_profile ∧
      (get_risk_profile service).risk = RiskLevel.MEDIUM ∧
      (get_risk_profile service).reason = "Unidentified service requires investigation") ∧
    get_risk_profile "Unknown" = unknown_profile := by
  refine ⟨?_, ?_, by decide⟩
  · cases h : (get_risk_profile service).risk <;> simp [h]
  · intro hmem
    have hlk : SERVICE_RISKS.lookup service = none := by
      refine lookup_eq_none_of_not_mem_keys service SERVICE_RISKS ?_
      intro p hp heq
      exact hmem (List.mem_map.mpr ⟨p, hp, heq.symm⟩)
    refine ⟨?_, ?_, ?_⟩ <;> simp [get_risk_profile, hlk, unknown_profile]

/-- Witness for C4 at the unmapped service name `CustomDaemon`. -/
theorem C4_classify_total_witness :
    "CustomDaemon" ∉ SERVICE_RISKS.map Prod.fst ∧
    get_risk_profile "CustomDaemon" = unknown_profile ∧
    (get_risk_profile "CustomDaemon").risk = RiskLevel.MEDIUM :=
  ⟨by decide,
    ((C4_classify_total "CustomDaemon").2.1 (by decide)).1,
    ((C4_classify_total "CustomDaemon").2.1 (by decide)).2.1⟩

/-! ## Claims about the executive summary builder -/

/-- Claim C9: `priority_actions` is built from the HIGH entry when HIGH
findings exist, the MEDIUM entry when MEDIUM findings exist, and exactly
the maintain-posture entry when neither exists; it is never empty and
has at most two elements. -/
theorem C9_priority_actions (risk_results : List RiskAssessment) (security_score : Int) :
    (generate_executive_summary risk_results security_score).priority_actions =
      (if risk_results.countP (fun r => r.risk_level == RiskLevel.HIGH) > 0 then
          ["Address " ++
              toString (risk_results.countP (fun r => r.risk_level == RiskLevel.HIGH)) ++
              " HIGH risk service(s) immediately"]
        else []) ++
      (if risk_results.countP (fun r => r.risk_level == RiskLevel.MEDIUM) > 0 then
          ["Review " ++
              toString (risk_results.countP (fun r => r.risk_level == RiskLevel.MEDIUM)) ++
              " MEDIUM risk service(s)"]
        else []) ++
      (if risk_results.countP (fun r => r.risk_level == RiskLevel.HIGH) = 0 ∧
          risk_results.countP (fun r => r.risk_level == RiskLevel.MEDIUM) = 0 then
          ["Continue monitoring and maintain security posture"]
        else []) ∧
    (generate_executive_summary risk_results security_score).priority_actions ≠ [] ∧
    (generate_executive_summary risk_results security_score).priority_actions.length ≤ 2 := by
  by_cases hh : risk_results.countP (fun r => r.risk_level == RiskLevel.HIGH) > 0 <;>
    by_cases hm : risk_results.countP (fun r => r.risk_level == RiskLevel.MEDIUM) > 0 <;>
      simp [generate_executive_summary, hh, hm, Nat.eq_zero_of_not_pos] <;>
        first
          | exact fun _ => List.countP_pos_iff.mp hm
          | exact List.countP_pos_iff.mp hh
          | exact List.countP_pos_iff.mp hm

/-! ## Claims about risk assessment (`RiskEngine.assess_risks`) -/

lemma tier_counts_eq_length (l : List RiskAssessment) :
    l.countP (fun r => r.risk_level == RiskLevel.HIGH) +
      l.countP (fun r => r.risk_level == RiskLevel.MEDIUM) +
      l.countP (fun r => r.risk_level == RiskLevel.LOW) = l.length := by
  induction l with
  | nil => rfl
  | cons r t ih =>
    cases h : r.risk_level <;>
      simp +decide [List.countP_cons, h, List.length_cons] <;> omega

/-- Claim C10: `assess_risks` maps each input record to one output record
in order, keeping port and service and taking the risk fields from the
classified profile; consequently the executive summary's HIGH, MEDIUM
and LOW counts always sum to `total_open_ports`. -/
theorem C10_assess_risks_shape (open_ports : List PortScanResult) (security_score : Int) :
    (assess_risks open_ports).length = open_ports.length ∧
    (∀ i : Nat,
      (assess_risks open_ports)[i]? = (open_ports[i]?).map (fun port_info =>
        { port := port_info.port
          service := port_info.service
          risk_level := (get_risk_profile port_info.service).risk
          risk_color := RISK_LEVELS_color (get_risk_profile port_info.service).risk
          reason := (get_risk_profile port_info.service).reason
          mitigation := (get_risk_profile port_info.service).mitigation })) ∧
    (generate_executive_summary (assess_risks open_ports) security_score).high_risk_count +
      (generate_executive_summary (assess_risks open_ports) security_score).medium_risk_count +
      (generate_executive_summary (assess_risks open_ports) security_score).low_risk_count =
      (generate_executive_summary (assess_risks open_ports) security_score).total_open_ports := by
  refine ⟨by simp [assess_risks], ?_, ?_⟩
  · intro i
    simp [assess_risks, List.getElem?_map]
  · simp only [generate_executive_summary]
    exact tier_counts_eq_length (assess_risks open_ports)

/-! ## Claims about the port scanner -/

lemma worker_fold_ok (attempt : Nat → ConnectAttempt) (env : Nat → Option String)
    (ports : List Nat) (acc : List PortScanResult) :
    ports.foldlM (worker_probe attempt env) acc =
      Except.ok (acc ++ (ports.filter (fun p => is_open_port (attempt p))).map
        (fun p => { port := p, service := get_service_name env p })) := by
  induction ports generalizing acc with
  | nil => simp [List.foldlM, pure, Except.pure]
  | cons p ps ih =>
    rw [List.foldlM_cons]
    cases hp : attempt p with
    | result code =>
      by_cases hc : (code == 0) = true
      · simp [worker_probe, scan_port, hp, hc, is_open_port, Bind.bind, Except.bind,
          pure, Except.pure, ih, List.filter_cons]
      · simp only [Bool.not_eq_true] at hc
        simp [worker_probe, scan_port, hp, hc, is_open_port, Bind.bind, Except.bind,
          pure, Except.pure, ih, List.filter_cons]
    | gaierror msg =>
      simp [worker_probe, scan_port, hp, is_open_port, Bind.bind, Except.bind,
        pure, Except.pure, ih, List.filter_cons]
    | socketError msg =>
      simp [worker_probe, scan_port, hp, is_open_port, Bind.bind, Except.bind,
        pure, Except.pure, ih, List.filter_cons]
    | otherError msg =>
      simp [worker_probe, scan_port, hp, is_open_port, Bind.bind, Except.bind,
        pure, Except.pure, ih, List.filter_cons]

/-- `scan` always completes: it returns `Except.ok` of the sorted open-port
entries, never a scan-level error. -/
lemma scan_eq_ok (attempt : Nat → ConnectAttempt) (env : Nat → Option String)
    (start_port end_port : Nat) :
    scan attempt env start_port end_port =
      Except.ok (sort_by_port (open_port_entries attempt env start_port end_port)) := by
  simp [scan, worker_fold_ok, open_port_entries, Bind.bind, Except.bind, pure, Except.pure]

/-- Claim C3: whatever order the workers delivered results in (any
permutation `collected` of the open-port entries), the scan output —
the port-sorted version of the collected list — contains only ports in
`[start_port, end_port]`, has no duplicate ports, and is sorted
ascending by port; and `scan` itself returns exactly the sorted
entries. -/
theorem C3_scan_ordered (attempt : Nat → ConnectAttempt) (env : Nat → Option String)
    (start_port end_port : Nat) (collected : List PortScanResult)
    (hperm : collected.Perm (open_port_entries attempt env start_port end_port)) :
    scan attempt env start_port end_port =
      Except.ok (sort_by_port (open_port_entries attempt env start_port end_port)) ∧
    (∀ r ∈ sort_by_port collected, start_port ≤ r.port ∧ r.port ≤ end_port) ∧
    ((sort_by_port collected).map PortScanResult.port).Nodup ∧
    (sort_by_port collected).Pairwise (fun a b => a.port ≤ b.port) := by
  have hsortperm : (sort_by_port collected).Perm collected :=
    List.mergeSort_perm collected _
  have hentries : (sort_by_port collected).Perm
      (open_port_entries attempt env start_port end_port) :=
    hsortperm.trans hperm
  refine ⟨scan_eq_ok attempt env start_port end_port, ?_, ?_, ?_⟩
  · intro r hr
    have hrm : r ∈ open_port_entries attempt env start_port end_port :=
      hentries.mem_iff.mp hr
    simp only [open_port_entries, List.mem_map, List.mem_filter, port_queue] at hrm
    obtain ⟨p, ⟨hpq, -⟩, rfl⟩ := hrm
    have hb := List.mem_range'_1.mp hpq
    refine ⟨?_, ?_⟩ <;> (dsimp only; omega)
  · have hmapperm := hentries.map PortScanResult.port
    have hmapped : (open_port_entries attempt env start_port end_port).map PortScanResult.port =
        (port_queue start_port end_port).filter (fun p => is_open_port (attempt p)) := by
      simp [open_port_entries, List.map_map, Function.comp_def]
    have hqnodup : ((port_queue start_port end_port).filter
        (fun p => is_open_port (attempt p))).Nodup := by
      refine List.Nodup.filter _ ?_
      simpa [port_queue] using List.nodup_range' start_port (end_port + 1 - start_port)
    exact hmapperm.nodup_iff.mpr (hmapped ▸ hqnodup)
  · have hs := @List.sorted_mergeSort PortScanResult
      (fun a b => decide (a.port ≤ b.port))
      (fun a b c hab hbc => by
        simp only [decide_eq_true_eq] at hab hbc ⊢; omega)
      (fun a b => by simp [Bool.or_eq_true, decide_eq_true_eq]; omega)
      collected
    exact hs.imp (fun h => by simpa using h)


/-- Witness for C3: scanning ports 20-25 of the two-open-port host, with
the workers finishing out of order. -/
theorem C3_scan_ordered_witness :
    witness_collected.Perm (open_port_entries witness_attempt witness_env 20 25) ∧
    ((∀ r ∈ sort_by_port witness_collected, 20 ≤ r.port ∧ r.port ≤ 25) ∧
      ((sort_by_port witness_collected).map PortScanResult.port).Nodup ∧
      (sort_by_port witness_collected).Pairwise (fun a b => a.port ≤ b.port)) :=
  ⟨by decide,
    (C3_scan_ordered witness_attempt witness_env 20 25 witness_collected (by decide)).2⟩

/-- Counterexample to claim C5: with a target whose every connect attempt
raises `socket.gaierror` (an unresolvable hostname), `scan` does not
abort — it completes and returns `Except.ok []`, the empty result list,
and `scan_port` swallows the resolution error, returning `False`. -/
theorem C5_counterexample :
    scan (fun _ => ConnectAttempt.gaierror "Hostname could not be resolved")
        (fun _ => none) 1 10 = Except.ok [] ∧
    scan_port (ConnectAttempt.gaierror "Hostname could not be resolved") =
      Except.ok false := by
  refine ⟨?_, rfl⟩
  rw [scan_eq_ok]
  simp [open_port_entries, is_open_port, scan_port, sort_by_port]

/-- Amended claim C5: hostname-resolution failure is caught inside
`scan_port`, which logs and returns `False`; the scan never surfaces a
scan-level failure and, with an unresolvable target, completes normally
with the empty result list for any port range. -/
theorem C5_resolution_failure_not_fatal (msg : String) (env : Nat → Option String)
    (start_port end_port : Nat) :
    scan_port (ConnectAttempt.gaierror msg) = Except.ok false ∧
    scan (fun _ => ConnectAttempt.gaierror msg) env start_port end_port =
      Except.ok [] := by
  refine ⟨rfl, ?_⟩
  rw [scan_eq_ok]
  simp [open_port_entries, is_open_port, scan_port, sort_by_port]

/-! ## Claims about the narrative generator -/

lemma simulate_eq_contract (rs : List RiskAssessment) (h : rs ≠ []) :
    simulate_attack_scenarios rs = simulate_contract rs := by
  have he : rs.isEmpty = false := by simpa [List.isEmpty_iff] using h
  by_cases hH : rs.filter (fun r => r.risk_level == RiskLevel.HIGH) = [] <;>
    by_cases hM : rs.filter (fun r => r.risk_level == RiskLevel.MEDIUM) = [] <;>
      by_cases hL : rs.filter (fun r => r.risk_level == RiskLevel.LOW) = [] <;>
        simp [simulate_attack_scenarios, simulate_contract, he, hH, hM, hL,
          List.isEmpty_iff, List.length_pos, gt_iff_lt, ite_not]

/-- Claim C7: on every non-empty assessment list, the generated narrative
list is exactly the contract order — the five HIGH rules firing
independently, then the three MEDIUM rules, then the single LOW
vigilance entry when LOW assessments exist, then exactly one overall
summary chosen by HIGH-count / MEDIUM-count / minimal precedence,
appended last. -/
theorem C7_simulate_order (rs : List RiskAssessment) (h : rs ≠ []) :
    simulate_attack_scenarios rs = simulate_contract rs :=
  simulate_eq_contract rs h

/-- Witness for C7 at the spec's five-service sample: two HIGH rules fire,
one MEDIUM rule, one LOW entry and the critical summary, five narratives
in all. -/
theorem C7_simulate_order_witness :
    sample_assessments ≠ [] ∧
    simulate_attack_scenarios sample_assessments = simulate_contract sample_assessments ∧
    (simulate_attack_scenarios sample_assessments).length = 5 :=
  ⟨by decide, C7_simulate_order sample_assessments (by decide), by decide⟩

lemma pair_string_length_pos (r : RiskAssessment) : 0 < (pair_string r).length := by
  have h1 : "(".length = 1 := rfl
  have h2 : ")".length = 1 := rfl
  have hlen : (pair_string r).length =
      r.service.length + 1 + (toString r.port).length + 1 := by
    simp [pair_string, String.length_append, h1, h2]
  omega

lemma join_comma_length_pos (s : String) (rest : List String) (hs : 0 < s.length) :
    0 < (join_comma (s :: rest)).length := by
  cases rest with
  | nil => simpa [join_comma] using hs
  | cons t ts => simp [join_comma, String.length_append]; omega

lemma service_port_pairs_ne_nil (l : List RiskAssessment) (h : l ≠ []) :
    service_port_pairs l ≠ "" := by
  cases l with
  | nil => exact absurd rfl h
  | cons r t =>
    have hlen : 0 < (service_port_pairs (r :: t)).length := by
      simpa [service_port_pairs] using
        join_comma_length_pos (pair_string r) (t.map pair_string) (pair_string_length_pos r)
    intro heq
    rw [heq] at hlen
    simp at hlen

set_option maxRecDepth 8192 in
/-- Counterexample to claim C8: with RDP and MySQL both open (both HIGH
tier, different rule groups), the fired remote-access rule's narrative
lists the whole tier — `RDP(3389), MySQL(3306)` — whereas the pairs
matching the rule's own group `{RDP, SSH, Telnet}` are just
`RDP(3389)`. -/
theorem C8_counterexample :
    (simulate_attack_scenarios two_high_assessments).head? =
      some (remote_access_narrative "RDP(3389), MySQL(3306)") ∧
    service_port_pairs
        ((two_high_assessments.filter (fun r => r.risk_level == RiskLevel.HIGH)).filter
          (fun r => ["RDP", "SSH", "Telnet"].contains r.service)) = "RDP(3389)" ∧
    ("RDP(3389), MySQL(3306)" : String) ≠ "RDP(3389)" := by
  refine ⟨by decide, by decide, by decide⟩

/-- Amended claim C8: each firing rule appends exactly one narrative; the
remote-access, lateral-movement and database rules interpolate the
listing of ALL HIGH-tier pairs, the web and email rules the listing of
ALL MEDIUM-tier pairs (not only their own group's matches), the Telnet,
VNC and DNS rules interpolate no pairs at all, and the LOW vigilance
entry lists all LOW-tier pairs; a fired rule's tier listing is never
empty. -/
theorem C8_narrative_listings (rs : List RiskAssessment) (h : rs ≠ []) :
    let high := rs.filter (fun r => r.risk_level == RiskLevel.HIGH)
    let med := rs.filter (fun r => r.risk_level == RiskLevel.MEDIUM)
    let low := rs.filter (fun r => r.risk_level == RiskLevel.LOW)
    (high.any (fun r => ["RDP", "SSH", "Telnet"].contains r.service) →
      remote_access_narrative (service_port_pairs high) ∈ simulate_attack_scenarios rs) ∧
    (high.any (fun r => ["SMB", "FTP"].contains r.service) →
      lateral_movement_narrative (service_port_pairs high) ∈ simulate_attack_scenarios rs) ∧
    (high.any (fun r => ["MySQL", "PostgreSQL"].contains r.service) →
      database_compromise_narrative (service_port_pairs high) ∈ simulate_attack_scenarios rs) ∧
    (high.any (fun r => r.service == "Telnet") →
      credential_interception_narrative ∈ simulate_attack_scenarios rs) ∧
    (high.any (fun r => r.service == "VNC") →
      desktop_hijack_narrative ∈ simulate_attack_scenarios rs) ∧
    (med.any (fun r => ["HTTP", "HTTP-Proxy", "HTTPS-Alt"].contains r.service) →
      web_service_narrative (service_port_pairs med) ∈ simulate_attack_scenarios rs) ∧
    (med.any (fun r => ["SMTP", "POP3", "IMAP"].contains r.service) →
      email_abuse_narrative (service_port_pairs med) ∈ simulate_attack_scenarios rs) ∧
    (med.any (fun r => r.service == "DNS") →
      dns_abuse_narrative ∈ simulate_attack_scenarios rs) ∧
    (low ≠ [] →
      maintain_vigilance_narrative (service_port_pairs low) ∈ simulate_attack_scenarios rs) ∧
    (high ≠ [] → service_port_pairs high ≠ "") ∧
    (med ≠ [] → service_port_pairs med ≠ "") ∧
    (low ≠ [] → service_port_pairs low ≠ "") := by
  intro high med low
  rw [simulate_eq_contract rs h]
  simp only [simulate_contract]
  refine ⟨?_, ?_, ?_, ?_, ?_, ?_, ?_, ?_, ?_,
    service_port_pairs_ne_nil high, service_port_pairs_ne_nil med,
    service_port_pairs_ne_nil low⟩
  · intro hc
    exact List.mem_append_left _ (List.mem_append_left _ (List.mem_append_left _ (List.mem_append_left _ (List.mem_append_left _ (List.mem_append_left _ (List.mem_append_left _ (List.mem_append_left _ (List.mem_append_left _ ((by rw [if_pos hc]; exact List.mem_singleton_self _))))))))))
  · intro hc
    exact List.mem_append_left _ (List.mem_append_left _ (List.mem_append_left _ (List.mem_append_left _ (List.mem_append_left _ (List.mem_append_left _ (List.mem_append_left _ (List.mem_append_left _ (List.mem_append_right _ (by rw [if_pos hc]; exact List.mem_singleton_self _)))))))))
  · intro hc
    exact List.mem_append_left _ (List.mem_append_left _ (List.mem_append_left _ (List.mem_append_left _ (List.mem_append_left _ (List.mem_append_left _ (List.mem_append_left _ (List.mem_append_right _ (by rw [if_pos hc]; exact List.mem_singleton_self _))))))))
  · intro hc
    exact List.mem_append_left _ (List.mem_append_left _ (List.mem_append_left _ (List.mem_append_left _ (List.mem_append_left _ (List.mem_append_left _ (List.mem_append_right _ (by rw [if_pos hc]; exact List.mem_singleton_self _)))))))
  · intro hc
    exact List.mem_append_left _ (List.mem_append_left _ (List.mem_append_left _ (List.mem_append_left _ (List.mem_append_left _ (List.mem_append_right _ (by rw [if_pos hc]; exact List.mem_singleton_self _))))))
  · intro hc
    exact List.mem_append_left _ (List.mem_append_left _ (List.mem_append_left _ (List.mem_append_left _ (List.mem_append_right _ (by rw [if_pos hc]; exact List.mem_singleton_self _)))))
  · intro hc
    exact List.mem_append_left _ (List.mem_append_left _ (List.mem_append_left _ (List.mem_append_right _ (by rw [if_pos hc]; exact List.mem_singleton_self _))))
  · intro hc
    exact List.mem_append_left _ (List.mem_append_left _ (List.mem_append_right _ (by rw [if_pos hc]; exact List.mem_singleton_self _)))
  · intro hc
    exact List.mem_append_left _ (List.mem_append_right _ (by rw [if_pos hc]; exact List.mem_singleton_self _))

/-- Witness for the amended C8 at the RDP+MySQL input: the remote-access
rule fires and its narrative (listing the whole HIGH tier) is among the
generated scenarios. -/
theorem C8_narrative_listings_witness :
    two_high_assessments ≠ [] ∧
    ((two_high_assessments.filter (fun r => r.risk_level == RiskLevel.HIGH)).any
        (fun r => ["RDP", "SSH", "Telnet"].contains r.service)) = true ∧
    remote_access_narrative
        (service_port_pairs
          (two_high_assessments.filter (fun r => r.risk_level == RiskLevel.HIGH)))
      ∈ simulate_attack_scenarios two_high_assessments :=
  ⟨by decide, by decide,
    (C8_narrative_listings two_high_assessments (by decide)).1 (by decide)⟩
